import Mathlib

/-!
Verification of the field-extraction heuristic of the historic-england
prototype repository.

The routine under study is `_extract_building_specific_data` in
`src/shared/scraper.py` (an identical copy, `extract_building_specific_data`,
lives in `src/api_vs_scrape_comparison.py`).  It receives a parsed HTML
document and fills a fixed 15-key dictionary of string fields by

  * trying ordered lists of regular expressions (grade, list entry,
    coordinates) against the document's text nodes, pattern-major:
    for each pattern, `soup.find(string=re.compile(pattern, re.I))` returns
    the first text node the pattern matches, and `re.search` on that node
    yields the first capture group; the first pattern that matches anywhere
    wins;
  * scanning the `<p>` paragraphs in order for the first one whose stripped
    text is longer than 100 characters and contains at least 3 of a fixed
    20-keyword list (case-insensitive substring test); from that paragraph
    the materials tags and the construction period are derived.

Embedding choices:
  * a document is modelled by its ordered list of text nodes (what
    `soup.find(string=...)` iterates) and its ordered list of paragraph
    texts (what `para.get_text()` yields for each `<p>`), both as `List Char`;
  * each regular expression literal of the source is hand-compiled to a
    matcher `List Char → Option (List Char)` returning the first capture
    group of a match anchored at the head of the input; the Python
    left-to-right scan of `re.search` is `scanM`.  All the patterns involved
    are concatenations of case-insensitive literals and disjoint greedy
    character classes, so Python's backtracking collapses to maximal-run
    matching; the only genuine backtracking (the first `\d{4,6}` of the
    grid-reference token) is reproduced by trying 6, 5, 4 digits in order;
  * `\s`, `\d`, `[A-Z]` (under `re.I`) and `str.lower`/`str.strip` are
    modelled at ASCII level, which is exact for every ASCII input;
  * the Python dict is modelled as an association list in dict-literal
    order (Python dicts preserve insertion order, and updating an existing
    key keeps its position);
  * the routine is total and pure, so "never raises" is reflected by
    `extract_building_specific_data` being a total Lean function.
-/

/-- ASCII lower-casing, the effect of `re.I` and `str.lower` on ASCII text. -/
def lowerChar (c : Char) : Char :=
  if 'A' ≤ c ∧ c ≤ 'Z' then Char.ofNat (c.toNat + 32) else c

/-- Case-insensitive character comparison. -/
def charCI (a b : Char) : Bool := lowerChar a == lowerChar b

/-- The ASCII whitespace class `\s`. -/
def isWs (c : Char) : Bool :=
  c == ' ' || c == '\t' || c == '\n' || c == '\r' || c == '\x0b' || c == '\x0c'

/-- The class `\d` (ASCII digits). -/
def isDigitC (c : Char) : Bool := '0' ≤ c && c ≤ '9'

/-- The class `[A-Z]` under `re.I`: any ASCII letter. -/
def isLetterCI (c : Char) : Bool := ('A' ≤ c && c ≤ 'Z') || ('a' ≤ c && c ≤ 'z')

/-- The class `[I2*]` under `re.I`. -/
def isGradeTok (c : Char) : Bool := c == 'I' || c == 'i' || c == '2' || c == '*'

/-- The class `[:\s]`. -/
def isColonWs (c : Char) : Bool := c == ':' || isWs c

/-- Does `pat` match case-insensitively at the head of `cs`? -/
def hasPrefixCI : List Char → List Char → Bool
  | [], _ => true
  | _ :: _, [] => false
  | p :: ps, c :: cs => charCI p c && hasPrefixCI ps cs

/-- Consume the case-insensitive literal `pat`, returning the rest. -/
def litCI : List Char → List Char → Option (List Char)
  | [], cs => some cs
  | _ :: _, [] => none
  | p :: ps, c :: cs => if charCI p c then litCI ps cs else none

/-- Greedy maximal run of a character class: `(run, rest)`. -/
def spanP (p : Char → Bool) : List Char → List Char × List Char
  | [] => ([], [])
  | c :: cs =>
    if p c then
      let r := spanP p cs
      (c :: r.1, r.2)
    else ([], c :: cs)

/-- Does the head of the list (if any) satisfy `p`? -/
def headSat (p : Char → Bool) : List Char → Bool
  | [] => false
  | c :: _ => p c

/-- Case-insensitive substring test: Python's `needle.lower() in hay.lower()`. -/
def containsCI (needle : List Char) : List Char → Bool
  | [] => needle.isEmpty
  | c :: cs => hasPrefixCI needle (c :: cs) || containsCI needle cs

/-- Case-sensitive prefix test (plain `List` prefix on characters). -/
def hasPrefixCS : List Char → List Char → Bool
  | [], _ => true
  | _ :: _, [] => false
  | p :: ps, c :: cs => (p == c) && hasPrefixCS ps cs

/-- Case-sensitive substring test. -/
def containsCS (needle : List Char) : List Char → Bool
  | [] => needle.isEmpty
  | c :: cs => hasPrefixCS needle (c :: cs) || containsCS needle cs

/-- `occursAt pat s j`: the pattern literal occurs (case-insensitively) at
position `j` of `s`. -/
def occursAt (pat s : List Char) (j : Nat) : Bool := hasPrefixCI pat (s.drop j)

/-- First-wins choice, the control flow of `if match: ...; break`. -/
def oor (a b : Option (List Char)) : Option (List Char) :=
  match a with
  | some x => some x
  | none => b

/-- Python `re.search`: try the anchored matcher at every position, leftmost
match first.  (Every pattern of the source needs at least one character, so
not trying the empty final position is faithful.) -/
def scanM (m : List Char → Option (List Char)) : List Char → Option (List Char)
  | [] => none
  | c :: cs => oor (m (c :: cs)) (scanM m cs)

/-- A matcher that starts with a literal: `litThen lab k` consumes the
case-insensitive literal `lab` and continues with `k`. -/
def litThen (lab : List Char) (k : List Char → Option (List Char))
    (cs : List Char) : Option (List Char) :=
  match litCI lab cs with
  | some r => k r
  | none => none

/-- Regex `Grade\s+([I2*]+)` (with `re.I`). -/
def mGradeSp : List Char → Option (List Char) :=
  litThen "Grade".data fun r =>
    let w := spanP isWs r
    if w.1.isEmpty then none
    else
      let g := spanP isGradeTok w.2
      if g.1.isEmpty then none else some g.1

/-- Regex `Grade\s*:\s*([I2*]+)` (with `re.I`). -/
def mGradeColon : List Char → Option (List Char) :=
  litThen "Grade".data fun r =>
    let w := spanP isWs r
    match w.2 with
    | ':' :: r2 =>
      let w2 := spanP isWs r2
      let g := spanP isGradeTok w2.2
      if g.1.isEmpty then none else some g.1
    | _ => none

/-- Regex `([I2*]+)\s*Grade` (with `re.I`). -/
def mGradePre (cs : List Char) : Option (List Char) :=
  let g := spanP isGradeTok cs
  if g.1.isEmpty then none
  else
    let w := spanP isWs g.2
    match litCI "Grade".data w.2 with
    | some _ => some g.1
    | none => none

/-- Regex `<lab>\s*[:\s]*(\d+)` (with `re.I`), shared by the two labelled
list-entry patterns. -/
def entryLabel (lab : List Char) : List Char → Option (List Char) :=
  litThen lab fun r =>
    let w := spanP isWs r
    let w2 := spanP isColonWs w.2
    let d := spanP isDigitC w2.2
    if d.1.isEmpty then none else some d.1

/-- Regex `(\d{6,})`. -/
def mEntryBare (cs : List Char) : Option (List Char) :=
  let d := spanP isDigitC cs
  if 6 ≤ d.1.length then some d.1 else none

/-- The tail `\s?\d{4,6}` of the grid-reference token.  (A whitespace head is
consumed when present: refusing it would put `\d` on a whitespace character.)
Returns the matched characters. -/
def gridTail (cs : List Char) : Option (List Char) :=
  match cs with
  | [] => none
  | c :: r =>
    if isWs c then
      let d := spanP isDigitC r
      if 4 ≤ d.1.length then some (c :: d.1.take 6) else none
    else
      let d := spanP isDigitC (c :: r)
      if 4 ≤ d.1.length then some (d.1.take 6) else none

/-- One backtracking attempt of `\d{4,6}\s?\d{4,6}`: take `k` characters of
the maximal digit run `ds` and continue at `ds.drop k ++ rest`. -/
def gridGroupK (k : Nat) (ds rest : List Char) : Option (List Char) :=
  if k ≤ ds.length then
    match gridTail (ds.drop k ++ rest) with
    | some t => some (ds.take k ++ t)
    | none => none
  else none

/-- Regex fragment `\d{4,6}\s?\d{4,6}`: the greedy first group tries 6, 5, 4
digits in that order, as Python's backtracking does. -/
def gridDigits (cs : List Char) : Option (List Char) :=
  let s := spanP isDigitC cs
  oor (gridGroupK 6 s.1 s.2) (oor (gridGroupK 5 s.1 s.2) (gridGroupK 4 s.1 s.2))

/-- Regex fragment `[A-Z]{2}\s?\d{4,6}\s?\d{4,6}` (with `re.I`). -/
def gridRef (cs : List Char) : Option (List Char) :=
  match cs with
  | a :: b :: r =>
    if isLetterCI a && isLetterCI b then
      match r with
      | c :: r2 =>
        if isWs c then (gridDigits r2).map fun t => a :: b :: c :: t
        else (gridDigits r).map fun t => a :: b :: t
      | [] => none
    else none
  | _ => none

/-- Regex `<lab>[:\s]*([A-Z]{2}\s?\d{4,6}\s?\d{4,6})` (with `re.I`), shared by
the three coordinate patterns. -/
def coordLabel (lab : List Char) : List Char → Option (List Char) :=
  litThen lab fun r => gridRef (spanP isColonWs r).2

/-- Regex `<lab>(\d+)` (with `re.I`): the three `Mid C`/`Early C`/`Late C`
period patterns, `lab` including the trailing `C`. -/
def periodPrefix (lab : List Char) : List Char → Option (List Char) :=
  litThen lab fun r =>
    let d := spanP isDigitC r
    if d.1.isEmpty then none else some d.1

/-- Regex `(\d+)<suf>` (with `re.I`): the `th century` / `th-century`
period patterns. -/
def periodSuffix (suf : List Char) (cs : List Char) : Option (List Char) :=
  let d := spanP isDigitC cs
  if d.1.isEmpty then none
  else
    match litCI suf d.2 with
    | some _ => some d.1
    | none => none

/-- `soup.find(string=re.compile(pattern, re.I))` followed by
`re.search(pattern, node, re.I)`: the first text node the pattern matches,
yielding its first capture group. -/
def findString (m : List Char → Option (List Char)) :
    List (List Char) → Option (List Char)
  | [] => none
  | s :: ss => oor (scanM m s) (findString m ss)

/-- The `for pattern in patterns: ... break` loop: first pattern that matches
any node wins. -/
def firstPattern (ms : List (List Char → Option (List Char)))
    (ss : List (List Char)) : Option (List Char) :=
  match ms with
  | [] => none
  | m :: rest => oor (findString m ss) (firstPattern rest ss)

/-- The `grade_patterns` list of the source, in source order. -/
def grade_patterns : List (List Char → Option (List Char)) :=
  [mGradeSp, mGradeColon, mGradePre]

/-- The `entry_patterns` list of the source, in source order. -/
def entry_patterns : List (List Char → Option (List Char)) :=
  [entryLabel "List Entry".data, entryLabel "Entry".data, mEntryBare]

/-- The `coord_patterns` list of the source, in source order. -/
def coord_patterns : List (List Char → Option (List Char)) :=
  [coordLabel "National Grid Reference".data, coordLabel "NGR".data,
   coordLabel "Grid Reference".data]

/-- The `architectural_keywords` list of the source. -/
def architectural_keywords : List (List Char) :=
  ["semi-detached".data, "cottages".data, "coursed rubble".data, "stone".data,
   "tiled".data, "brick stacks".data, "mullioned".data, "casements".data,
   "chamfered".data, "beams".data, "planked doors".data, "recessed".data,
   "diagonally-set".data, "axial position".data, "timber".data, "slate".data,
   "thatch".data, "gable".data, "dormer".data, "bay window".data]

/-- `sum(1 for keyword in architectural_keywords if keyword.lower() in
text.lower())`. -/
def countHits (t : List Char) : List (List Char) → Nat
  | [] => 0
  | k :: ks => (if containsCI k t then 1 else 0) + countHits t ks

/-- Python `str.strip()` at ASCII level. -/
def stripChars (cs : List Char) : List Char :=
  ((cs.dropWhile isWs).reverse.dropWhile isWs).reverse

/-- The paragraph loop: first paragraph whose stripped text is longer than
100 characters and hits at least 3 keywords; `break` once found.  (The source
nests the two tests; selecting on their conjunction is the same control
flow.) -/
def archSelect : List (List Char) → Option (List Char)
  | [] => none
  | p :: ps =>
    let t := stripChars p
    if 100 < t.length ∧ 3 ≤ countHits t architectural_keywords then some t
    else archSelect ps

/-- The four independent `if ... in text.lower(): data['materials'] += ...`
checks, appended in source order starting from the empty string. -/
def materialsOf (t : List Char) : String :=
  String.mk
    ((if containsCI "coursed rubble".data t then "coursed rubble stone, ".data else []) ++
     (if containsCI "tiled".data t then "tiled roof, ".data else []) ++
     (if containsCI "brick".data t then "brick, ".data else []) ++
     (if containsCI "timber".data t then "timber, ".data else []))

/-- The `period_patterns` loop on the selected paragraph, in source order. -/
def periodOf (t : List Char) : Option (List Char) :=
  oor (scanM (periodPrefix "Mid C".data) t)
    (oor (scanM (periodPrefix "Early C".data) t)
      (oor (scanM (periodPrefix "Late C".data) t)
        (oor (scanM (periodSuffix "th century".data) t)
          (scanM (periodSuffix "th-century".data) t))))

/-- A field that stays at its default `''` when no pattern matched. -/
def optStr (o : Option (List Char)) : String := String.mk (o.getD [])

/-- `data['materials']` as a function of the selected paragraph. -/
def archMaterials (o : Option (List Char)) : String :=
  match o with
  | some t => materialsOf t
  | none => ""

/-- `data['construction_period']` as a function of the selected paragraph. -/
def archPeriod (o : Option (List Char)) : String :=
  match o with
  | some t => optStr (periodOf t)
  | none => ""

/-- The input document: the ordered text nodes that `soup.find(string=...)`
iterates, and the ordered `<p>` paragraph texts that `soup.find_all('p')`
yields. -/
structure Document where
  strings : List (List Char)
  paragraphs : List (List Char)

/-- `_extract_building_specific_data` of `src/shared/scraper.py`: the
returned dict, as an association list in the source's dict-literal key order.
The paragraph loop runs once in the source and assigns three fields; here its
result `archSelect doc.paragraphs` is consulted by the three corresponding
fields, which is the same value since the computation is pure. -/
def extract_building_specific_data (doc : Document) : List (String × String) :=
  [("grade", optStr (firstPattern grade_patterns doc.strings)),
   ("list_entry", optStr (firstPattern entry_patterns doc.strings)),
   ("list_date", ""),
   ("description", ""),
   ("history", ""),
   ("architectural_details", optStr (archSelect doc.paragraphs)),
   ("reasons_for_listing", ""),
   ("location", ""),
   ("coordinates", optStr (firstPattern coord_patterns doc.strings)),
   ("address", ""),
   ("materials", archMaterials (archSelect doc.paragraphs)),
   ("construction_period", archPeriod (archSelect doc.paragraphs)),
   ("architectural_style", ""),
   ("interior_features", ""),
   ("exterior_features", "")]

/-- The fifteen keys of the source's dict literal, in order. -/
def record_keys : List String :=
  ["grade", "list_entry", "list_date", "description", "history",
   "architectural_details", "reasons_for_listing", "location", "coordinates",
   "address", "materials", "construction_period", "architectural_style",
   "interior_features", "exterior_features"]

/-- The six fields the specification describes. -/
def spec_fields : List String :=
  ["grade", "list_entry", "coordinates", "architectural_details", "materials",
   "construction_period"]

namespace Comparison

/-- The `grade_patterns` list of `extract_building_specific_data` in
`src/api_vs_scrape_comparison.py` (textually identical regex literals). -/
def grade_patterns : List (List Char → Option (List Char)) :=
  [mGradeSp, mGradeColon, mGradePre]

/-- The `entry_patterns` list of the comparison copy. -/
def entry_patterns : List (List Char → Option (List Char)) :=
  [entryLabel "List Entry".data, entryLabel "Entry".data, mEntryBare]

/-- The `coord_patterns` list of the comparison copy. -/
def coord_patterns : List (List Char → Option (List Char)) :=
  [coordLabel "National Grid Reference".data, coordLabel "NGR".data,
   coordLabel "Grid Reference".data]

/-- The `architectural_keywords` list of the comparison copy. -/
def architectural_keywords : List (List Char) :=
  ["semi-detached".data, "cottages".data, "coursed rubble".data, "stone".data,
   "tiled".data, "brick stacks".data, "mullioned".data, "casements".data,
   "chamfered".data, "beams".data, "planked doors".data, "recessed".data,
   "diagonally-set".data, "axial position".data, "timber".data, "slate".data,
   "thatch".data, "gable".data, "dormer".data, "bay window".data]

/-- The paragraph loop of the comparison copy. -/
def archSelect : List (List Char) → Option (List Char)
  | [] => none
  | p :: ps =>
    let t := stripChars p
    if 100 < t.length ∧ 3 ≤ countHits t Comparison.architectural_keywords then
      some t
    else Comparison.archSelect ps

/-- The materials accumulation of the comparison copy. -/
def materialsOf (t : List Char) : String :=
  String.mk
    ((if containsCI "coursed rubble".data t then "coursed rubble stone, ".data else []) ++
     (if containsCI "tiled".data t then "tiled roof, ".data else []) ++
     (if containsCI "brick".data t then "brick, ".data else []) ++
     (if containsCI "timber".data t then "timber, ".data else []))

/-- The `period_patterns` loop of the comparison copy. -/
def periodOf (t : List Char) : Option (List Char) :=
  oor (scanM (periodPrefix "Mid C".data) t)
    (oor (scanM (periodPrefix "Early C".data) t)
      (oor (scanM (periodPrefix "Late C".data) t)
        (oor (scanM (periodSuffix "th century".data) t)
          (scanM (periodSuffix "th-century".data) t))))

/-- `data['materials']` of the comparison copy. -/
def archMaterials (o : Option (List Char)) : String :=
  match o with
  | some t => Comparison.materialsOf t
  | none => ""

/-- `data['construction_period']` of the comparison copy. -/
def archPeriod (o : Option (List Char)) : String :=
  match o with
  | some t => optStr (Comparison.periodOf t)
  | none => ""

/-- `extract_building_specific_data` of `src/api_vs_scrape_comparison.py`. -/
def extract_building_specific_data (doc : Document) : List (String × String) :=
  [("grade", optStr (firstPattern Comparison.grade_patterns doc.strings)),
   ("list_entry", optStr (firstPattern Comparison.entry_patterns doc.strings)),
   ("list_date", ""),
   ("description", ""),
   ("history", ""),
   ("architectural_details", optStr (Comparison.archSelect doc.paragraphs)),
   ("reasons_for_listing", ""),
   ("location", ""),
   ("coordinates", optStr (firstPattern Comparison.coord_patterns doc.strings)),
   ("address", ""),
   ("materials", Comparison.archMaterials (Comparison.archSelect doc.paragraphs)),
   ("construction_period", Comparison.archPeriod (Comparison.archSelect doc.paragraphs)),
   ("architectural_style", ""),
   ("interior_features", ""),
   ("exterior_features", "")]

end Comparison

/-! Helper lemmas about the embedded matching primitives. -/

/-- A class run is empty when the head does not satisfy the class. -/
lemma spanP_head_false (p : Char → Bool) (l : List Char)
    (h : headSat p l = false) : spanP p l = ([], l) := by
  cases l with
  | nil => rfl
  | cons c cs => simp only [headSat] at h; simp [spanP, h]

/-- A literal matcher fails where the literal does not occur. -/
lemma litCI_eq_none_of (l cs : List Char) (h : hasPrefixCI l cs = false) :
    litCI l cs = none := by
  induction l generalizing cs with
  | nil => simp [hasPrefixCI] at h
  | cons p ps ih =>
    cases cs with
    | nil => rfl
    | cons c cs' =>
      simp only [hasPrefixCI, Bool.and_eq_false_iff] at h
      rcases h with h | h
      · simp [litCI, h]
      · by_cases hc : charCI p c = true
        · simp [litCI, hc, ih cs' h]
        · simp [litCI, Bool.eq_false_iff.mpr hc]

/-- A literal-headed matcher fails where the literal does not occur. -/
lemma litThen_eq_none (lab : List Char) (k : List Char → Option (List Char))
    (cs : List Char) (h : hasPrefixCI lab cs = false) :
    litThen lab k cs = none := by
  simp [litThen, litCI_eq_none_of lab cs h]

/-- `re.search` fails when the anchored matcher fails at every position. -/
lemma scanM_eq_none (m : List Char → Option (List Char)) (s : List Char)
    (h : ∀ j, j < s.length → m (s.drop j) = none) : scanM m s = none := by
  induction s with
  | nil => rfl
  | cons c cs ih =>
    have h0 : m (c :: cs) = none := h 0 (by simp)
    have h' : ∀ j, j < cs.length → m (cs.drop j) = none := by
      intro j hj
      have := h (j + 1) (by simpa using Nat.succ_lt_succ hj)
      simpa using this
    simp [scanM, oor, h0, ih h']

/-- `re.search` skips a region where the anchored matcher fails everywhere. -/
lemma scanM_append (m : List Char → Option (List Char)) (u w : List Char)
    (h : ∀ j, j < u.length → m (List.drop j (u ++ w)) = none) :
    scanM m (u ++ w) = scanM m w := by
  induction u with
  | nil => rfl
  | cons c u' ih =>
    have h0 : m (c :: (u' ++ w)) = none := by
      have := h 0 (by simp)
      simpa using this
    have h' : ∀ j, j < u'.length → m (List.drop j (u' ++ w)) = none := by
      intro j hj
      have := h (j + 1) (by simpa using Nat.succ_lt_succ hj)
      simpa using this
    simp [scanM, oor, h0, ih h']

/-- The node search skips nodes on which the scan fails. -/
lemma findString_skip (m : List Char → Option (List Char))
    (pre rest : List (List Char)) (h : ∀ n ∈ pre, scanM m n = none) :
    findString m (pre ++ rest) = findString m rest := by
  induction pre with
  | nil => rfl
  | cons n pre' ih =>
    have hn : scanM m n = none := h n (by simp)
    have h' : ∀ n' ∈ pre', scanM m n' = none := fun n' hn' => h n' (by simp [hn'])
    simp [findString, oor, hn, ih h']

/-- The node search fails when the scan fails on every node. -/
lemma findString_eq_none (m : List Char → Option (List Char))
    (ss : List (List Char)) (h : ∀ n ∈ ss, scanM m n = none) :
    findString m ss = none := by
  induction ss with
  | nil => rfl
  | cons n ss' ih =>
    have hn : scanM m n = none := h n (by simp)
    have h' : ∀ n' ∈ ss', scanM m n' = none := fun n' hn' => h n' (by simp [hn'])
    simp [findString, oor, hn, ih h']

/-- A literal-headed pattern finds nothing in a node free of the literal. -/
lemma scanM_litThen_eq_none (lab : List Char)
    (k : List Char → Option (List Char)) (s : List Char)
    (h : ∀ j, j < s.length → occursAt lab s j = false) :
    scanM (litThen lab k) s = none :=
  scanM_eq_none _ s fun j hj =>
    litThen_eq_none lab k (s.drop j) (h j hj)

/-- The paragraph loop skips paragraphs failing the length-and-keywords test. -/
lemma archSelect_skip (pre rest : List (List Char))
    (h : ∀ q ∈ pre,
      ¬(100 < (stripChars q).length ∧
        3 ≤ countHits (stripChars q) architectural_keywords)) :
    archSelect (pre ++ rest) = archSelect rest := by
  induction pre with
  | nil => rfl
  | cons q pre' ih =>
    have hq := h q (by simp)
    have h' : ∀ q' ∈ pre', _ := fun q' hq' => h q' (by simp [hq'])
    simp only [List.cons_append, archSelect]
    rw [if_neg hq]
    exact ih h'

/-- A selected paragraph is longer than 100 characters. -/
lemma archSelect_length (l : List (List Char)) (t : List Char)
    (h : archSelect l = some t) : 100 < t.length := by
  induction l with
  | nil => simp [archSelect] at h
  | cons p ps ih =>
    simp only [archSelect] at h
    by_cases hc : 100 < (stripChars p).length ∧
        3 ≤ countHits (stripChars p) architectural_keywords
    · rw [if_pos hc] at h
      cases h
      exact hc.1
    · rw [if_neg hc] at h
      exact ih h

/-- Three present keywords push the keyword count to at least 3. -/
lemma countHits_ge_three (t : List Char)
    (h1 : containsCI "coursed rubble".data t = true)
    (h2 : containsCI "tiled".data t = true)
    (h3 : containsCI "mullioned".data t = true) :
    3 ≤ countHits t architectural_keywords := by
  simp only [architectural_keywords, countHits, h1, h2, h3, if_true]
  omega

/-- A list contains itself followed by anything, as a prefix. -/
lemma hasPrefixCS_self_append (n r : List Char) :
    hasPrefixCS n (n ++ r) = true := by
  induction n with
  | nil => rfl
  | cons c cs ih => simp [hasPrefixCS, ih]

/-- Substring containment at the front. -/
lemma containsCS_self_append (n r : List Char) :
    containsCS n (n ++ r) = true := by
  cases n with
  | nil =>
    cases r with
    | nil => rfl
    | cons c cs => simp [containsCS, hasPrefixCS]
  | cons c cs =>
    have h := hasPrefixCS_self_append (c :: cs) r
    simp only [List.cons_append] at h
    simp [containsCS, h]

/-- Substring containment survives prepending. -/
lemma containsCS_append_left (l n r : List Char)
    (h : containsCS n r = true) : containsCS n (l ++ r) = true := by
  induction l with
  | nil => simpa using h
  | cons c l' ih =>
    simp only [List.cons_append, containsCS, List.append_eq]
    rw [ih]
    simp

/-- The comparison copy's paragraph loop agrees with the canonical one. -/
lemma comparison_archSelect_eq (l : List (List Char)) :
    Comparison.archSelect l = archSelect l := by
  induction l with
  | nil => rfl
  | cons p ps ih =>
    simp only [Comparison.archSelect, archSelect,
      Comparison.architectural_keywords, architectural_keywords]
    rw [ih]

/-- The comparison copy's materials accumulation agrees. -/
lemma comparison_archMaterials_eq (o : Option (List Char)) :
    Comparison.archMaterials o = archMaterials o := by
  cases o <;> rfl

/-- The comparison copy's period extraction agrees. -/
lemma comparison_archPeriod_eq (o : Option (List Char)) :
    Comparison.archPeriod o = archPeriod o := by
  cases o <;> rfl

/-- The two materials tags produced by present keywords are substrings of the
accumulated materials string, in source order. -/
lemma materialsOf_contains (t : List Char)
    (hcr : containsCI "coursed rubble".data t = true)
    (htl : containsCI "tiled".data t = true) :
    containsCS "coursed rubble stone, ".data (materialsOf t).data = true ∧
    containsCS "tiled roof, ".data (materialsOf t).data = true := by
  have hd : (materialsOf t).data =
      "coursed rubble stone, ".data ++
        ("tiled roof, ".data ++
          ((if containsCI "brick".data t then "brick, ".data else []) ++
           (if containsCI "timber".data t then "timber, ".data else []))) := by
    show ((if containsCI "coursed rubble".data t then "coursed rubble stone, ".data else []) ++
          (if containsCI "tiled".data t then "tiled roof, ".data else []) ++
          (if containsCI "brick".data t then "brick, ".data else []) ++
          (if containsCI "timber".data t then "timber, ".data else [])) = _
    rw [if_pos hcr, if_pos htl, List.append_assoc, List.append_assoc]
  constructor
  · rw [hd]
    exact containsCS_self_append _ _
  · rw [hd]
    exact containsCS_append_left _ _ _ (containsCS_self_append _ _)

/-- C2: the claim asserts the returned record's key set is exactly the six
spec-described fields.  The source dict literal has fifteen keys; `address`
is among them and is not one of the six, so the claim as stated is false. -/
theorem c2_six_keys_counterexample :
    "address" ∈ (extract_building_specific_data ⟨[], []⟩).map Prod.fst ∧
    "address" ∉ spec_fields := by decide

/-- C2 (amended): on every document the extraction returns (totally, hence
never raising) a record whose ordered key list is exactly the fifteen keys of
the source dict literal; each of the six spec-described fields is present,
and every other key keeps its default empty-string value. -/
theorem c2_record_shape (d : Document) :
    (extract_building_specific_data d).map Prod.fst = record_keys ∧
    (∀ k ∈ spec_fields, ∃ v, (extract_building_specific_data d).lookup k = some v) ∧
    (∀ k ∈ record_keys, k ∉ spec_fields →
      (extract_building_specific_data d).lookup k = some "") := by
  refine ⟨rfl, ?_, ?_⟩
  · intro k hk
    simp only [spec_fields, List.mem_cons, List.not_mem_nil, or_false] at hk
    rcases hk with rfl | rfl | rfl | rfl | rfl | rfl <;> exact ⟨_, rfl⟩
  · intro k hk hn
    simp only [record_keys, List.mem_cons, List.not_mem_nil, or_false] at hk
    rcases hk with rfl | rfl | rfl | rfl | rfl | rfl | rfl | rfl | rfl | rfl |
      rfl | rfl | rfl | rfl | rfl <;>
      first
        | rfl
        | exact absurd (by decide) hn

/-- C2 witness: the amended shape theorem applied to the empty document and
the field `grade`. -/
theorem c2_record_shape_witness :
    (extract_building_specific_data ⟨[], []⟩).map Prod.fst = record_keys ∧
    ∃ v, (extract_building_specific_data ⟨[], []⟩).lookup "grade" = some v :=
  ⟨(c2_record_shape ⟨[], []⟩).1,
   (c2_record_shape ⟨[], []⟩).2.1 "grade" (by decide)⟩

/-- C6: the claim asserts a paragraph of exactly 100 characters reaching the
keyword threshold is selected.  The source tests `len(text) > 100` strictly,
so a 100-character paragraph with 4 keyword hits is skipped and
`architectural_details` stays empty. -/
theorem c6_hundred_char_counterexample :
    ((stripChars "Cottages with coursed rubble walls and a tiled roof and mullioned windows stand beside the churches.".data).length = 100 ∧
     3 ≤ countHits (stripChars "Cottages with coursed rubble walls and a tiled roof and mullioned windows stand beside the churches.".data) architectural_keywords) ∧
    (extract_building_specific_data
        ⟨[], ["Cottages with coursed rubble walls and a tiled roof and mullioned windows stand beside the churches.".data]⟩).lookup
      "architectural_details" ≠
      some (String.mk (stripChars "Cottages with coursed rubble walls and a tiled roof and mullioned windows stand beside the churches.".data)) := by
  decide

/-- C6 (amended): a paragraph is a candidate iff its stripped text is longer
than 100 characters: every paragraph of length at most 100 (including exactly
100) is skipped, and a first paragraph of exactly 101 characters reaching the
3-keyword threshold is selected. -/
theorem c6_candidate_boundary :
    (∀ d : Document, (∀ p ∈ d.paragraphs, (stripChars p).length ≤ 100) →
      (extract_building_specific_data d).lookup "architectural_details" = some "") ∧
    (∀ d : Document, ∀ p post, d.paragraphs = p :: post →
      (stripChars p).length = 101 →
      3 ≤ countHits (stripChars p) architectural_keywords →
      (extract_building_specific_data d).lookup "architectural_details" =
        some (String.mk (stripChars p))) := by
  constructor
  · intro d h
    have h' : ∀ q ∈ d.paragraphs,
        ¬(100 < (stripChars q).length ∧
          3 ≤ countHits (stripChars q) architectural_keywords) := by
      intro q hq hc
      have := h q hq
      omega
    have hA : archSelect d.paragraphs = none := by
      have := archSelect_skip d.paragraphs [] h'
      simpa using this
    have h0 : (extract_building_specific_data d).lookup "architectural_details"
        = some (optStr (archSelect d.paragraphs)) := rfl
    rw [h0, hA]
    rfl
  · intro d p post hp h101 hcnt
    have h0 : (extract_building_specific_data d).lookup "architectural_details"
        = some (optStr (archSelect d.paragraphs)) := rfl
    rw [h0, hp]
    have hA : archSelect (p :: post) = some (stripChars p) := by
      simp only [archSelect]
      rw [if_pos ⟨by omega, hcnt⟩]
    rw [hA]
    rfl

/-- C6 witness: both halves of the boundary theorem at concrete documents: a
single 5-character paragraph leaves the field empty, and a single
101-character paragraph with 4 keyword hits is selected. -/
theorem c6_candidate_boundary_witness :
    (extract_building_specific_data ⟨[], ["short".data]⟩).lookup
      "architectural_details" = some "" ∧
    (extract_building_specific_data
        ⟨[], ["Cottages with coursed rubble walls and a tiled roof and mullioned windows stand beside the churches..".data]⟩).lookup
      "architectural_details" =
      some (String.mk (stripChars "Cottages with coursed rubble walls and a tiled roof and mullioned windows stand beside the churches..".data)) :=
  ⟨c6_candidate_boundary.1 ⟨[], ["short".data]⟩ (by decide),
   c6_candidate_boundary.2
     ⟨[], ["Cottages with coursed rubble walls and a tiled roof and mullioned windows stand beside the churches..".data]⟩
     _ [] rfl (by decide) (by decide)⟩

/-- C7: when every paragraph of at least 100 characters (stripped) hits at
most 2 of the architectural keywords, no paragraph is selected and
`architectural_details`, `materials` and `construction_period` are all the
empty string. -/
theorem c7_below_threshold_all_empty (d : Document)
    (h : ∀ p ∈ d.paragraphs, 100 ≤ (stripChars p).length →
      countHits (stripChars p) architectural_keywords ≤ 2) :
    (extract_building_specific_data d).lookup "architectural_details" = some "" ∧
    (extract_building_specific_data d).lookup "materials" = some "" ∧
    (extract_building_specific_data d).lookup "construction_period" = some "" := by
  have h' : ∀ q ∈ d.paragraphs,
      ¬(100 < (stripChars q).length ∧
        3 ≤ countHits (stripChars q) architectural_keywords) := by
    intro q hq hc
    have := h q hq (by omega)
    omega
  have hA : archSelect d.paragraphs = none := by
    have := archSelect_skip d.paragraphs [] h'
    simpa using this
  have h0 : (extract_building_specific_data d).lookup "architectural_details"
      = some (optStr (archSelect d.paragraphs)) := rfl
  have h1 : (extract_building_specific_data d).lookup "materials"
      = some (archMaterials (archSelect d.paragraphs)) := rfl
  have h2 : (extract_building_specific_data d).lookup "construction_period"
      = some (archPeriod (archSelect d.paragraphs)) := rfl
  rw [h0, h1, h2, hA]
  exact ⟨rfl, rfl, rfl⟩

/-- C7 witness: a 121-character paragraph with exactly 2 keyword hits
(`tiled`, `timber`) contributes nothing to the three fields. -/
theorem c7_below_threshold_all_empty_witness :
    (extract_building_specific_data
        ⟨[], ["This is a long building description mentioning a tiled roof and some timber framing but nothing else of note here at all.".data]⟩).lookup
      "architectural_details" = some "" ∧
    (extract_building_specific_data
        ⟨[], ["This is a long building description mentioning a tiled roof and some timber framing but nothing else of note here at all.".data]⟩).lookup
      "materials" = some "" ∧
    (extract_building_specific_data
        ⟨[], ["This is a long building description mentioning a tiled roof and some timber framing but nothing else of note here at all.".data]⟩).lookup
      "construction_period" = some "" :=
  c7_below_threshold_all_empty
    ⟨[], ["This is a long building description mentioning a tiled roof and some timber framing but nothing else of note here at all.".data]⟩
    (by decide)

/-- C8: the extraction is deterministic: its output depends only on the input
document (the embedding is a pure total function of the document and the
fixed pattern tables, mirroring the source's freedom from I/O and mutable
state). -/
theorem c8_extract_deterministic (d1 d2 : Document) (h : d1 = d2) :
    extract_building_specific_data d1 = extract_building_specific_data d2 := by
  rw [h]

/-- C8 witness: determinism at the empty document. -/
theorem c8_extract_deterministic_witness :
    extract_building_specific_data ⟨[], []⟩ =
      extract_building_specific_data ⟨[], []⟩ :=
  c8_extract_deterministic ⟨[], []⟩ ⟨[], []⟩ rfl

/-- C9: the two rich copies of the extraction routine —
`_extract_building_specific_data` in `src/shared/scraper.py` and
`extract_building_specific_data` in `src/api_vs_scrape_comparison.py` — are
extensionally equal: they return the same record on every document. -/
theorem c9_extraction_copies_agree (d : Document) :
    extract_building_specific_data d =
      Comparison.extract_building_specific_data d := by
  simp only [extract_building_specific_data,
    Comparison.extract_building_specific_data, comparison_archSelect_eq,
    comparison_archMaterials_eq, comparison_archPeriod_eq,
    Comparison.grade_patterns, grade_patterns, Comparison.entry_patterns,
    entry_patterns, Comparison.coord_patterns, coord_patterns]

/-- C10: if the returned `architectural_details` is empty then `materials` and
`construction_period` are empty too: all three are only ever set from the one
selected paragraph, and a selected paragraph is longer than 100 characters,
hence nonempty. -/
theorem c10_materials_period_tied_to_details (d : Document)
    (h : (extract_building_specific_data d).lookup "architectural_details" =
      some "") :
    (extract_building_specific_data d).lookup "materials" = some "" ∧
    (extract_building_specific_data d).lookup "construction_period" = some "" := by
  have h0 : (extract_building_specific_data d).lookup "architectural_details"
      = some (optStr (archSelect d.paragraphs)) := rfl
  have h1 : (extract_building_specific_data d).lookup "materials"
      = some (archMaterials (archSelect d.paragraphs)) := rfl
  have h2 : (extract_building_specific_data d).lookup "construction_period"
      = some (archPeriod (archSelect d.paragraphs)) := rfl
  rw [h0] at h
  cases hA : archSelect d.paragraphs with
  | none =>
    rw [h1, h2, hA]
    exact ⟨rfl, rfl⟩
  | some t =>
    exfalso
    rw [hA] at h
    have ht : t = [] := congrArg String.data (Option.some.inj h)
    have hl := archSelect_length _ _ hA
    rw [ht] at hl
    simp at hl

/-- C10 witness: the implication at the empty document, whose
`architectural_details` is empty. -/
theorem c10_materials_period_tied_to_details_witness :
    (extract_building_specific_data ⟨[], []⟩).lookup "materials" = some "" ∧
    (extract_building_specific_data ⟨[], []⟩).lookup "construction_period" =
      some "" :=
  c10_materials_period_tied_to_details ⟨[], []⟩ rfl

/-- C4: a document containing the literal `Grade II*` with no other
grade-like text (no earlier case-insensitive occurrence of `Grade` in the
matched node or any earlier node, and no grade-token character right after
the `II*`) yields `grade = "II*"`: the first grade pattern
`Grade\s+([I2*]+)` matches there and its first capture group is taken. -/
theorem c4_grade_two_star (d : Document) (pre post : List (List Char))
    (s u v : List Char)
    (hd : d.strings = pre ++ s :: post)
    (hs : s = u ++ "Grade II*".data ++ v)
    (hpre : ∀ n ∈ pre, ∀ j, j < n.length → occursAt "Grade".data n j = false)
    (hu : ∀ j, j < u.length → occursAt "Grade".data s j = false)
    (hv : headSat isGradeTok v = false) :
    (extract_building_specific_data d).lookup "grade" = some "II*" := by
  have h1 : s = u ++ ("Grade II*".data ++ v) := by rw [hs, List.append_assoc]
  have hmatch : scanM mGradeSp s = some "II*".data := by
    have hfail : ∀ j, j < u.length →
        mGradeSp (List.drop j (u ++ ("Grade II*".data ++ v))) = none := by
      intro j hj
      have ho := hu j hj
      rw [h1] at ho
      exact litThen_eq_none _ _ _ ho
    rw [h1, scanM_append mGradeSp u _ hfail]
    have hstep : scanM mGradeSp ("Grade II*".data ++ v)
        = some ('I' :: 'I' :: '*' :: (spanP isGradeTok v).1) := rfl
    rw [spanP_head_false isGradeTok v hv] at hstep
    exact hstep
  have hskip : findString mGradeSp (pre ++ s :: post)
      = findString mGradeSp (s :: post) :=
    findString_skip _ pre _ fun n hn => scanM_litThen_eq_none _ _ n (hpre n hn)
  have hfs : findString mGradeSp d.strings = some "II*".data := by
    rw [hd, hskip]
    simp [findString, oor, hmatch]
  have h0 : (extract_building_specific_data d).lookup "grade"
      = some (optStr (firstPattern grade_patterns d.strings)) := rfl
  rw [h0]
  simp only [firstPattern, grade_patterns, hfs, oor]
  rfl

/-- C4 witness: the single node `Listed as Grade II* in 1952.` yields grade
`II*`. -/
theorem c4_grade_two_star_witness :
    (extract_building_specific_data
        ⟨["Listed as Grade II* in 1952.".data], []⟩).lookup "grade" =
      some "II*" :=
  c4_grade_two_star ⟨["Listed as Grade II* in 1952.".data], []⟩ [] []
    "Listed as Grade II* in 1952.".data "Listed as ".data " in 1952.".data
    rfl rfl (by decide) (by decide) (by decide)

/-- C3: when a labelled entry (`Entry: 123456`, with no `List Entry` label
anywhere and no earlier `Entry` occurrence) and a separate bare run of six or
more digits both occur — in any order, including the bare number in an
earlier node — `list_entry` is the labelled pattern's first capture group,
kept as a string: the patterns are tried pattern-major in the order
`List Entry`, `Entry`, bare digits, so a pattern earlier in the list beats
any match of a later pattern regardless of textual position. -/
theorem c3_labelled_entry_beats_bare (d : Document)
    (pre post : List (List Char)) (s u v : List Char)
    (hd : d.strings = pre ++ s :: post)
    (hs : s = u ++ "Entry: 123456".data ++ v)
    (hnoList : ∀ n ∈ d.strings, ∀ j, j < n.length →
      occursAt "List Entry".data n j = false)
    (hpre : ∀ n ∈ pre, ∀ j, j < n.length → occursAt "Entry".data n j = false)
    (hu : ∀ j, j < u.length → occursAt "Entry".data s j = false)
    (hv : headSat isDigitC v = false)
    (_hbare : ∃ n ∈ d.strings, ∃ j < n.length,
      6 ≤ ((n.drop j).takeWhile isDigitC).length) :
    (extract_building_specific_data d).lookup "list_entry" = some "123456" := by
  have h1 : s = u ++ ("Entry: 123456".data ++ v) := by rw [hs, List.append_assoc]
  have hE1 : findString (entryLabel "List Entry".data) d.strings = none :=
    findString_eq_none _ _ fun n hn =>
      scanM_litThen_eq_none _ _ n (hnoList n hn)
  have hmatch : scanM (entryLabel "Entry".data) s = some "123456".data := by
    have hfail : ∀ j, j < u.length →
        entryLabel "Entry".data (List.drop j (u ++ ("Entry: 123456".data ++ v)))
          = none := by
      intro j hj
      have ho := hu j hj
      rw [h1] at ho
      exact litThen_eq_none _ _ _ ho
    rw [h1, scanM_append _ u _ hfail]
    have hstep : scanM (entryLabel "Entry".data) ("Entry: 123456".data ++ v)
        = some ('1' :: '2' :: '3' :: '4' :: '5' :: '6' ::
            (spanP isDigitC v).1) := rfl
    rw [spanP_head_false isDigitC v hv] at hstep
    exact hstep
  have hskip : findString (entryLabel "Entry".data) (pre ++ s :: post)
      = findString (entryLabel "Entry".data) (s :: post) :=
    findString_skip _ pre _ fun n hn => scanM_litThen_eq_none _ _ n (hpre n hn)
  have hE2 : findString (entryLabel "Entry".data) d.strings
      = some "123456".data := by
    rw [hd, hskip]
    simp [findString, oor, hmatch]
  have h0 : (extract_building_specific_data d).lookup "list_entry"
      = some (optStr (firstPattern entry_patterns d.strings)) := rfl
  rw [h0]
  simp only [firstPattern, entry_patterns, hE1, hE2, oor]
  rfl

/-- C3 witness: the bare seven-digit number sits in an earlier node than the
labelled `Entry: 123456`, and the labelled capture still wins. -/
theorem c3_labelled_entry_beats_bare_witness :
    (extract_building_specific_data
        ⟨["Reference 9876543 in the register.".data,
          "List number Entry: 123456 for the record.".data], []⟩).lookup
      "list_entry" = some "123456" :=
  c3_labelled_entry_beats_bare
    ⟨["Reference 9876543 in the register.".data,
      "List number Entry: 123456 for the record.".data], []⟩
    ["Reference 9876543 in the register.".data] []
    "List number Entry: 123456 for the record.".data
    "List number ".data " for the record.".data
    rfl rfl (by decide) (by decide) (by decide) (by decide) (by decide)

/-- C5: the claim asserts any document whose text contains
`NGR: ST 12345 67890` gets those coordinates; but the `National Grid
Reference` pattern is tried before the `NGR` pattern, so a document that also
contains a `National Grid Reference` label gets that label's grid reference
instead. -/
theorem c5_ngr_counterexample :
    containsCS "NGR: ST 12345 67890".data
      "Here NGR: ST 12345 67890 is given.".data = true ∧
    (extract_building_specific_data
        ⟨["National Grid Reference: SU 1111 2222".data,
          "Here NGR: ST 12345 67890 is given.".data], []⟩).lookup
      "coordinates" = some "SU 1111 2222" ∧
    ¬((extract_building_specific_data
        ⟨["National Grid Reference: SU 1111 2222".data,
          "Here NGR: ST 12345 67890 is given.".data], []⟩).lookup
      "coordinates" = some "ST 12345 67890") := by
  decide

/-- C5 (amended): when the document contains `NGR: ST 12345 67890`, no node
matches the earlier-precedence `National Grid Reference` pattern, no earlier
`NGR` occurrence exists, and no digit follows, the coordinates are
`ST 12345 67890`: the three label patterns are tried in the fixed order
`National Grid Reference`, `NGR`, `Grid Reference`, first match anywhere
winning, each label followed by the two-letter/4-6-digit/4-6-digit
grid-reference token. -/
theorem c5_ngr_coordinates (d : Document)
    (pre post : List (List Char)) (s u v : List Char)
    (hd : d.strings = pre ++ s :: post)
    (hs : s = u ++ "NGR: ST 12345 67890".data ++ v)
    (hnoNat : ∀ n ∈ d.strings, ∀ j, j < n.length →
      occursAt "National Grid Reference".data n j = false)
    (hpre : ∀ n ∈ pre, ∀ j, j < n.length → occursAt "NGR".data n j = false)
    (hu : ∀ j, j < u.length → occursAt "NGR".data s j = false)
    (hv : headSat isDigitC v = false) :
    (extract_building_specific_data d).lookup "coordinates" =
      some "ST 12345 67890" := by
  have h1 : s = u ++ ("NGR: ST 12345 67890".data ++ v) := by
    rw [hs, List.append_assoc]
  have hC1 : findString (coordLabel "National Grid Reference".data) d.strings
      = none :=
    findString_eq_none _ _ fun n hn =>
      scanM_litThen_eq_none _ _ n (hnoNat n hn)
  have hmatch : scanM (coordLabel "NGR".data) s
      = some "ST 12345 67890".data := by
    have hfail : ∀ j, j < u.length →
        coordLabel "NGR".data
          (List.drop j (u ++ ("NGR: ST 12345 67890".data ++ v))) = none := by
      intro j hj
      have ho := hu j hj
      rw [h1] at ho
      exact litThen_eq_none _ _ _ ho
    rw [h1, scanM_append _ u _ hfail]
    have hstep : scanM (coordLabel "NGR".data) ("NGR: ST 12345 67890".data ++ v)
        = some ('S' :: 'T' :: ' ' :: '1' :: '2' :: '3' :: '4' :: '5' :: ' ' ::
            '6' :: '7' :: '8' :: '9' :: '0' ::
            List.take 1 (spanP isDigitC v).1) := rfl
    rw [spanP_head_false isDigitC v hv] at hstep
    exact hstep
  have hskip : findString (coordLabel "NGR".data) (pre ++ s :: post)
      = findString (coordLabel "NGR".data) (s :: post) :=
    findString_skip _ pre _ fun n hn => scanM_litThen_eq_none _ _ n (hpre n hn)
  have hC2 : findString (coordLabel "NGR".data) d.strings
      = some "ST 12345 67890".data := by
    rw [hd, hskip]
    simp [findString, oor, hmatch]
  have h0 : (extract_building_specific_data d).lookup "coordinates"
      = some (optStr (firstPattern coord_patterns d.strings)) := rfl
  rw [h0]
  simp only [firstPattern, coord_patterns, hC1, hC2, oor]
  rfl

/-- C5 witness: a single node carrying `NGR: ST 12345 67890` in running text
yields those coordinates. -/
theorem c5_ngr_coordinates_witness :
    (extract_building_specific_data
        ⟨["Sited at NGR: ST 12345 67890 on the hill.".data], []⟩).lookup
      "coordinates" = some "ST 12345 67890" :=
  c5_ngr_coordinates ⟨["Sited at NGR: ST 12345 67890 on the hill.".data], []⟩
    [] [] "Sited at NGR: ST 12345 67890 on the hill.".data
    "Sited at ".data " on the hill.".data
    rfl rfl (by decide) (by decide) (by decide) (by decide)

set_option maxRecDepth 10000 in
/-- C1: the claim asserts that an eligible paragraph (it takes "length at
least 100") containing the three keywords and the phrase `Mid C18` yields
`construction_period = "18"`.  The period is taken from the leftmost
`Mid C(\d+)` match, so a paragraph that also contains an earlier `Mid C17`
yields `"17"`, falsifying the claim as stated. -/
theorem c1_first_paragraph_counterexample :
    (100 ≤ "Two cottages of coursed rubble with a tiled roof and mullioned windows to the front, remodelled in Mid C17 and extended again in Mid C18 for the estate.".data.length ∧
     containsCS "coursed rubble".data "Two cottages of coursed rubble with a tiled roof and mullioned windows to the front, remodelled in Mid C17 and extended again in Mid C18 for the estate.".data = true ∧
     containsCS "tiled".data "Two cottages of coursed rubble with a tiled roof and mullioned windows to the front, remodelled in Mid C17 and extended again in Mid C18 for the estate.".data = true ∧
     containsCS "mullioned".data "Two cottages of coursed rubble with a tiled roof and mullioned windows to the front, remodelled in Mid C17 and extended again in Mid C18 for the estate.".data = true ∧
     containsCS "Mid C18".data "Two cottages of coursed rubble with a tiled roof and mullioned windows to the front, remodelled in Mid C17 and extended again in Mid C18 for the estate.".data = true) ∧
    ¬((extract_building_specific_data
        ⟨[], ["Two cottages of coursed rubble with a tiled roof and mullioned windows to the front, remodelled in Mid C17 and extended again in Mid C18 for the estate.".data]⟩).lookup
      "construction_period" = some "18") := by
  decide

/-- C1 (amended): for every document whose first paragraph of stripped length
greater than 100 contains `coursed rubble`, `tiled` and `mullioned`
(so at least 3 keyword hits), and whose leftmost `Mid C` occurrence in that
paragraph is `Mid C18` followed by no further digit, the extraction sets
`architectural_details` to that paragraph's stripped text, appends
`coursed rubble stone, ` then `tiled roof, ` to `materials` (both present as
substrings, in that fixed order), and sets `construction_period` to `"18"`;
scanning stops at that paragraph whatever follows. -/
theorem c1_first_paragraph_extraction (d : Document)
    (pre post : List (List Char)) (p u v : List Char)
    (hd : d.paragraphs = pre ++ p :: post)
    (hpre : ∀ q ∈ pre, (stripChars q).length ≤ 100)
    (hlen : 100 < (stripChars p).length)
    (hcr : containsCI "coursed rubble".data (stripChars p) = true)
    (htl : containsCI "tiled".data (stripChars p) = true)
    (hml : containsCI "mullioned".data (stripChars p) = true)
    (hmid : stripChars p = u ++ "Mid C18".data ++ v)
    (hu : ∀ j, j < u.length → occursAt "Mid C".data (stripChars p) j = false)
    (hv : headSat isDigitC v = false) :
    (extract_building_specific_data d).lookup "architectural_details" =
      some (String.mk (stripChars p)) ∧
    (∃ m, (extract_building_specific_data d).lookup "materials" = some m ∧
      containsCS "coursed rubble stone, ".data m.data = true ∧
      containsCS "tiled roof, ".data m.data = true) ∧
    (extract_building_specific_data d).lookup "construction_period" =
      some "18" := by
  have hsel : archSelect d.paragraphs = some (stripChars p) := by
    have hskip : ∀ q ∈ pre,
        ¬(100 < (stripChars q).length ∧
          3 ≤ countHits (stripChars q) architectural_keywords) := by
      intro q hq hc
      have := hpre q hq
      omega
    rw [hd, archSelect_skip pre _ hskip]
    simp only [archSelect]
    rw [if_pos ⟨hlen, countHits_ge_three _ hcr htl hml⟩]
  refine ⟨?_, ?_, ?_⟩
  · have h0 : (extract_building_specific_data d).lookup "architectural_details"
        = some (optStr (archSelect d.paragraphs)) := rfl
    rw [h0, hsel]
    rfl
  · refine ⟨materialsOf (stripChars p), ?_, ?_, ?_⟩
    · have h1 : (extract_building_specific_data d).lookup "materials"
          = some (archMaterials (archSelect d.paragraphs)) := rfl
      rw [h1, hsel]
      rfl
    · exact (materialsOf_contains _ hcr htl).1
    · exact (materialsOf_contains _ hcr htl).2
  · have h2 : (extract_building_specific_data d).lookup "construction_period"
        = some (archPeriod (archSelect d.paragraphs)) := rfl
    rw [h2, hsel]
    have hscan : scanM (periodPrefix "Mid C".data) (stripChars p)
        = some "18".data := by
      have h1 : stripChars p = u ++ ("Mid C18".data ++ v) := by
        rw [hmid, List.append_assoc]
      have hfail : ∀ j, j < u.length →
          periodPrefix "Mid C".data
            (List.drop j (u ++ ("Mid C18".data ++ v))) = none := by
        intro j hj
        have ho := hu j hj
        rw [h1] at ho
        exact litThen_eq_none _ _ _ ho
      rw [h1, scanM_append _ u _ hfail]
      have hstep : scanM (periodPrefix "Mid C".data) ("Mid C18".data ++ v)
          = some ('1' :: '8' :: (spanP isDigitC v).1) := rfl
      rw [spanP_head_false isDigitC v hv] at hstep
      exact hstep
    show some (optStr (periodOf (stripChars p))) = some "18"
    simp only [periodOf, hscan, oor]
    rfl

set_option maxRecDepth 10000 in
/-- C1 witness: a single 124-character paragraph containing the three
keywords and a unique `Mid C18`. -/
theorem c1_first_paragraph_extraction_witness :
    (extract_building_specific_data
        ⟨[], ["The house is built of coursed rubble with a tiled roof and mullioned windows, and was much altered in Mid C18 by the estate.".data]⟩).lookup
      "architectural_details" =
      some (String.mk (stripChars "The house is built of coursed rubble with a tiled roof and mullioned windows, and was much altered in Mid C18 by the estate.".data)) ∧
    (∃ m, (extract_building_specific_data
        ⟨[], ["The house is built of coursed rubble with a tiled roof and mullioned windows, and was much altered in Mid C18 by the estate.".data]⟩).lookup
      "materials" = some m ∧
      containsCS "coursed rubble stone, ".data m.data = true ∧
      containsCS "tiled roof, ".data m.data = true) ∧
    (extract_building_specific_data
        ⟨[], ["The house is built of coursed rubble with a tiled roof and mullioned windows, and was much altered in Mid C18 by the estate.".data]⟩).lookup
      "construction_period" = some "18" :=
  c1_first_paragraph_extraction
    ⟨[], ["The house is built of coursed rubble with a tiled roof and mullioned windows, and was much altered in Mid C18 by the estate.".data]⟩
    [] []
    "The house is built of coursed rubble with a tiled roof and mullioned windows, and was much altered in Mid C18 by the estate.".data
    "The house is built of coursed rubble with a tiled roof and mullioned windows, and was much altered in ".data
    " by the estate.".data
    rfl (by decide) (by decide) (by decide) (by decide) (by decide)
    (by decide) (by decide) (by decide)
